import Mathlib

/-!
Shallow embedding of the DCinside crawler (source files
`DCArticleProcessor.py` and `DCArticleCrawler.py`).

Modelling conventions:
* Calendar dates are encoded as `y * 10000 + m * 100 + d : Nat`, which is
  strictly monotone in calendar order for valid dates, so `≤`/`<` on the
  encoding agree with `datetime` comparison.
* Python exceptions are explicit: fallible code returns `Except PyExn _`.
  The distinct `ValueError` messages raised by the crawler are kept apart
  by the `VMsg` tag, since the spec's error taxonomy distinguishes them.
* The remote board is an oracle `pages : Int → FetchOutcome`
  (`netError` = `requests.RequestException`; a `Page` field that is `none`
  models `soup.select_one` returning `None`, so touching `.text` raises
  `AttributeError`).  The Selenium comment crawl is the oracle
  `commentsFor : Int → Option (List Comment)` (`none` = the comment parser
  raised, which `crawl_comments` turns into a `None` return).
* `KeyboardInterrupt` is cooperative: the oracle `interruptAt` names the
  loop iteration at whose start the signal is delivered, matching the
  spec's "cancellation ... checked between iterations".
* The traversal loops use fuel, since the date-mode loop need not
  terminate.
-/

namespace DCCrawler

/-! ## Dates and `parse_date` -/

abbrev Date := Nat

def isLeap (y : Nat) : Bool :=
  y % 4 == 0 && (y % 100 != 0 || y % 400 == 0)

def daysInMonth (y m : Nat) : Nat :=
  if m == 2 then (if isLeap y then 29 else 28)
  else if m == 4 || m == 6 || m == 9 || m == 11 then 30
  else 31

def mkDate (y m d : Nat) : Date :=
  y * 10000 + m * 100 + d

/-- Python-faithful character-level string helpers.  (The corresponding
core `String` functions are not used because they do not reduce inside
the kernel; these structurally recursive versions compute.) -/
def splitOnChar (sep : Char) : List Char → List (List Char)
  | [] => [[]]
  | c :: rest =>
    match splitOnChar sep rest with
    | [] => [[c]]
    | g :: gs => if c == sep then [] :: g :: gs else (c :: g) :: gs

def isDigitChar (c : Char) : Bool :=
  48 ≤ c.toNat && c.toNat ≤ 57

def isSpaceChar (c : Char) : Bool :=
  c == ' ' || c == '\t' || c == '\n' || c == '\r'

def allDigits (cs : List Char) : Bool :=
  !cs.isEmpty && cs.all isDigitChar

def digitsToNat (cs : List Char) : Nat :=
  cs.foldl (fun a c => a * 10 + (c.toNat - 48)) 0

def listStartsWith : List Char → List Char → Bool
  | [], _ => true
  | _ :: _, [] => false
  | p :: ps, c :: cs => p == c && listStartsWith ps cs

def replaceCharsAux (pat repl : List Char) : Nat → List Char → List Char
  | 0, cs => cs
  | _, [] => []
  | Nat.succ fuel, c :: cs =>
    if listStartsWith pat (c :: cs) then
      repl ++ replaceCharsAux pat repl fuel (List.drop (pat.length - 1) cs)
    else
      c :: replaceCharsAux pat repl fuel cs

/-- Python `s.replace(pat, repl)` for a non-empty pattern (left-to-right,
non-overlapping; the source only uses non-empty patterns). -/
def pyReplace (s pat repl : String) : String :=
  if pat.data.isEmpty then s
  else String.mk (replaceCharsAux pat.data repl.data s.data.length s.data)

/-- Python `s.rstrip()` followed by `s.lstrip()` (i.e. `strip()`). -/
def pyStrip (s : String) : String :=
  String.mk (((s.data.dropWhile isSpaceChar).reverse.dropWhile
    isSpaceChar).reverse)

/-- Embedding of `datetime.datetime.strptime(s, "%Y.%m.%d")`: the whole
string must be three dot-separated digit groups (year up to 4 digits,
month and day up to 2) naming a valid calendar date, else `ValueError`
(modelled as `none`). -/
def strptimeYMD (s : String) : Option Date :=
  match splitOnChar '.' s.data with
  | [ys, ms, ds] =>
    if allDigits ys && decide (ys.length ≤ 4)
        && allDigits ms && decide (ms.length ≤ 2)
        && allDigits ds && decide (ds.length ≤ 2) then
      let y := digitsToNat ys
      let m := digitsToNat ms
      let d := digitsToNat ds
      if decide (1 ≤ y) && decide (1 ≤ m) && decide (m ≤ 12)
          && decide (1 ≤ d) && decide (d ≤ daysInMonth y m) then
        some (mkDate y m d)
      else none
    else none
  | _ => none

/-- The `ValueError` messages raised in `DCArticleCrawler.py`, kept
distinct because the spec's error taxonomy distinguishes
`ConfigurationError` from `NotFoundError`. -/
inductive VMsg
  | galleryNotFound
  | noRecentPost
  | gallNoPairIncomplete
  | datePairIncomplete
  | noScrapCondition
  | bothScrapConditions
  | invalidDateFormat
  | gallNoOrder
  | dateOrder
deriving DecidableEq, Repr

inductive PyExn
  | requestException
  | attributeError
  | indexError
  | typeError
  | keyboardInterrupt
  | valueError (msg : VMsg)
deriving DecidableEq, Repr

/-- Embedding of `DCArticleProcessor.parse_date`.  `text.split()[0]`
(whitespace split, empty chunks dropped) raises `IndexError` on
all-whitespace text (only `ValueError` is caught in the source); an
unparseable first token yields `ok none`. -/
def parse_date (text : String) : Except PyExn (Option Date) :=
  match (splitOnChar ' ' text.data).filter (fun g => !g.isEmpty) with
  | [] => .error .indexError
  | dt :: _ => .ok (strptimeYMD (String.mk dt))

/-! ## Pages and article records -/

/-- A fetched post page, as seen through the CSS selectors of
`crawl_except_comment`.  A `none` field models `select_one` returning
`None` (so `.text` raises `AttributeError`).  The numeric counters are
already parsed at this adapter boundary. -/
structure Page where
  gall_date : Option String
  title_headtext : Option String
  title_subject : Option String
  write_div : Option String
  recommend_up : Option Nat
  recommend_down : Option Nat
  view_count : Option Nat
deriving DecidableEq, Repr

/-- Result of `requests.get` for a post page: `netError` models
`requests.RequestException` being raised. -/
inductive FetchOutcome
  | netError
  | got (p : Page)
deriving Repr

structure ArticleExceptComment where
  gall_no : Int
  date : Option Date
  header : String
  title : String
  view_count : Nat
  content : String
  recommend_count : Nat
  nonrecommend_count : Nat
deriving DecidableEq, Repr

structure Comment where
  text : String
  replies : List String
deriving DecidableEq, Repr

structure ArticleData extends ArticleExceptComment where
  comments : List Comment
deriving DecidableEq, Repr

/-- Embedding of `DCArticleProcessor.crawl_except_comment`.  Network
errors and a missing date element are caught (logged skip, `ok none`);
`parse_date`'s result is stored unchecked (the record's `date` may be
`none`); a missing title / recommend / view-count element raises an
uncaught `AttributeError`. -/
def crawl_except_comment (pages : Int → FetchOutcome) (gall_no : Int) :
    Except PyExn (Option ArticleExceptComment) :=
  match pages gall_no with
  | .netError => .ok none
  | .got soup =>
    match soup.gall_date with
    | none => .ok none
    | some dateText =>
      match parse_date dateText with
      | .error e => .error e
      | .ok date =>
        let article_header :=
          match soup.title_headtext with
          | none => ""
          | some h => pyReplace (pyReplace h "[" "") "]" ""
        match soup.title_subject with
        | none => .error .attributeError
        | some title =>
          let content :=
            match soup.write_div with
            | none => ""
            | some c => pyReplace (pyStrip c) "- dc official App" ""
          match soup.recommend_up, soup.recommend_down, soup.view_count with
          | some r, some nr, some vc =>
            .ok (some
              { gall_no := gall_no
                date := date
                header := article_header
                title := title
                view_count := vc
                content := content
                recommend_count := r
                nonrecommend_count := nr })
          | _, _, _ => .error .attributeError

/-- Embedding of `DCArticleProcessor.process_article`.  `commentsFor g =
none` models `crawl_comments` returning `None` (comment-parse exception),
which makes `process_article` return `None`. -/
def process_article (pages : Int → FetchOutcome)
    (commentsFor : Int → Option (List Comment))
    (is_crawl_comments : Bool) (gall_no : Int) :
    Except PyExn (Option ArticleData) :=
  match crawl_except_comment pages gall_no with
  | .error e => .error e
  | .ok none => .ok none
  | .ok (some a) =>
    if is_crawl_comments then
      match commentsFor gall_no with
      | none => .ok none
      | some cs => .ok (some { toArticleExceptComment := a, comments := cs })
    else
      .ok (some { toArticleExceptComment := a, comments := [] })

/-! ## The durable store, `save_data_in_batch`, `load_collected_gall_no` -/

def digitChar (n : Nat) : Char :=
  Char.ofNat (48 + n % 10)

/-- `strftime("%Y.%m.%d")` on the encoded date (zero-padded year, month
and day; encoded years never exceed four digits). -/
def strftimeYMD (d : Date) : String :=
  let y := d / 10000
  let m := d / 100 % 100
  let dd := d % 100
  String.mk [digitChar (y / 1000), digitChar (y / 100), digitChar (y / 10),
    digitChar y, '.', digitChar (m / 10), digitChar m, '.',
    digitChar (dd / 10), digitChar dd]

/-- One persisted JSONL line.  `save_data_in_batch` pops the `header`
field, so it is absent here; a `none` date serializes as JSON `null`. -/
structure StoredRec where
  gall_no : Int
  date : Option String
  title : String
  view_count : Nat
  content : String
  recommend_count : Nat
  nonrecommend_count : Nat
  comments : List Comment
deriving DecidableEq, Repr

/-- The per-record body of `save_data_in_batch`: strftime the date (when
present), keep the numeric fields (already integers here), drop `header`. -/
def dump (a : ArticleData) : StoredRec :=
  { gall_no := a.gall_no
    date := a.date.map strftimeYMD
    title := a.title
    view_count := a.view_count
    content := a.content
    recommend_count := a.recommend_count
    nonrecommend_count := a.nonrecommend_count
    comments := a.comments }

/-- Embedding of `save_data_in_batch`, appending to the store.  The batch
is a list of `Option ArticleData` because the date-mode loop can append
the unchecked result of the second-phase fetch: on a `none` entry,
`article.date` raises `AttributeError` and the records already written
stay written (append-mode file). -/
def save_data_in_batch :
    List StoredRec → List (Option ArticleData) → List StoredRec × Option PyExn
  | store, [] => (store, none)
  | store, none :: _ => (store, some .attributeError)
  | store, some a :: rest => save_data_in_batch (store ++ [dump a]) rest

/-- Embedding of `load_collected_gall_no`: an absent/unreadable file
(`store = none`) gives the empty set; otherwise the `gall_no` of every
line.  (Malformed lines, skipped in the source, are not representable in
the typed store.) -/
def load_collected_gall_no (store : Option (List StoredRec)) : List Int :=
  match store with
  | none => []
  | some recs => recs.map (fun r => r.gall_no)

def storeIds (store : List StoredRec) : List Int :=
  store.map (fun r => r.gall_no)

def batchIds (batch : List (Option ArticleData)) : List Int :=
  batch.filterMap (fun o => o.map (fun a => a.gall_no))

/-! ## Configuration and `check_scrapping_conditions` -/

structure CrawlerConfig where
  start_gall_no : Option Int
  end_gall_no : Option Int
  start_date : Option String
  end_date : Option String
  is_crawl_comments : Bool
  maximum_batch_size : Nat
deriving DecidableEq, Repr

/-- Python truthiness of an optional integer bound:
`bool(None) = bool(0) = False`. -/
def truthyOptInt : Option Int → Bool
  | none => false
  | some v => v != 0

/-- Python truthiness of an optional date string:
`bool(None) = bool("") = False`. -/
def truthyOptStr : Option String → Bool
  | none => false
  | some s => !s.data.isEmpty

/-- Network-visible actions, for ordering claims. -/
inductive Event
  | listRequest
  | postRequest (gall_no : Int)
  | sleepEvt
deriving DecidableEq, Repr

/-- The resolved scrape mode (`self.gall_no` plus
`self.crawl_article_based_on_gall_no` after `check_scrapping_conditions`). -/
inductive ScrapPlan
  | byGallNo (start_gall_no end_gall_no : Int)
  | byDate (start_date end_date : Date) (recent_gall_no : Int)
deriving DecidableEq, Repr

/-- Embedding of `DCArticleCrawler.check_scrapping_conditions`.  The pair
checks use Python truthiness (`bool(x) ^ bool(y)`), not `is not None`.
Date mode fetches the listing page (an `Event.listRequest`) to find the
most recent regular post number; `recentLookup = none` models
`select_recent_gall_no` finding no eligible row and raising. -/
def check_scrapping_conditions (c : CrawlerConfig) (recentLookup : Option Int) :
    List Event × Except PyExn ScrapPlan :=
  if truthyOptInt c.start_gall_no ^^ truthyOptInt c.end_gall_no then
    ([], .error (.valueError .gallNoPairIncomplete))
  else if truthyOptStr c.start_date ^^ truthyOptStr c.end_date then
    ([], .error (.valueError .datePairIncomplete))
  else
    let has_gall_no_range := c.start_gall_no.isSome && c.end_gall_no.isSome
    let has_date_range := c.start_date.isSome && c.end_date.isSome
    if !(has_gall_no_range || has_date_range) then
      ([], .error (.valueError .noScrapCondition))
    else if has_gall_no_range && has_date_range then
      ([], .error (.valueError .bothScrapConditions))
    else if has_gall_no_range then
      match c.start_gall_no, c.end_gall_no with
      | some s, some e =>
        if s > e then ([], .error (.valueError .gallNoOrder))
        else ([], .ok (.byGallNo s e))
      | _, _ => ([], .error (.valueError .gallNoOrder))
    else
      match c.start_date, c.end_date with
      | some sd, some ed =>
        match strptimeYMD sd, strptimeYMD ed with
        | some s, some e =>
          if s > e then ([], .error (.valueError .dateOrder))
          else
            match recentLookup with
            | some r => ([.listRequest], .ok (.byDate s e r))
            | none => ([.listRequest], .error (.valueError .noRecentPost))
        | _, _ => ([], .error (.valueError .invalidDateFormat))
      | _, _ => ([], .error (.valueError .invalidDateFormat))

/-! ## The traversal engine -/

/-- The world outside the engine: the board, the comment layer, the
durable store at startup (`none` = file absent), and the iteration at
whose start a `KeyboardInterrupt` is delivered. -/
structure World where
  galleryExists : Bool
  recentLookup : Option Int
  pages : Int → FetchOutcome
  commentsFor : Int → Option (List Comment)
  store0 : Option (List StoredRec)
  interruptAt : Option Nat

structure LoopState where
  gall_no : Int
  batch : List (Option ArticleData)
  store : List StoredRec
  events : List Event
  iter : Nat
deriving DecidableEq, Repr

inductive LoopExit
  | normal
  | interrupted
  | exn (e : PyExn)
  | fuelOut
deriving DecidableEq, Repr

inductive StepOut
  | next (st : LoopState)
  | stop (st : LoopState) (ex : LoopExit)
deriving DecidableEq, Repr

def interruptNow (w : World) (iter : Nat) : Bool :=
  match w.interruptAt with
  | none => false
  | some k => iter == k

/-- The in-loop `if len(batch) >= self.maximum_batch_size: save; clear`. -/
def flushIfThreshold (maximum_batch_size : Nat) (st : LoopState) :
    LoopState × Option PyExn :=
  if st.batch.length ≥ maximum_batch_size then
    match save_data_in_batch st.store st.batch with
    | (store2, some e) => ({ st with store := store2 }, some e)
    | (store2, none) => ({ st with store := store2, batch := [] }, none)
  else (st, none)

/-- The date-mode append: without comments the phase-1 record is appended;
with comments the post is re-fetched with comments and the raw
`Option` result is appended (`batch.append(article_data)` at
`DCArticleCrawler.py:324`, with no `None` check). -/
def appendPhase (w : World) (is_crawl_comments : Bool) (st : LoopState)
    (article_data : ArticleData) : LoopState × Option PyExn :=
  if is_crawl_comments then
    let st1 := { st with events := st.events ++ [.postRequest st.gall_no] }
    match process_article w.pages w.commentsFor true st1.gall_no with
    | .error e => (st1, some e)
    | .ok second => ({ st1 with batch := st1.batch ++ [second] }, none)
  else
    ({ st with batch := st.batch ++ [some article_data] }, none)

/-- The tail of one id-mode iteration after the fetch: threshold flush,
then advance the cursor and sleep.  Factored out so the loop invariant
can be stated against an arbitrary post-append state. -/
def idStepTail (maximum_batch_size : Nat) (st2 : LoopState) : StepOut :=
  let fl := flushIfThreshold maximum_batch_size st2
  match fl.2 with
  | some e => .stop fl.1 (.exn e)
  | none =>
    .next { fl.1 with gall_no := fl.1.gall_no + 1, events := fl.1.events ++ [Event.sleepEvt], iter := fl.1.iter + 1 }

/-- One iteration of the ascending-by-id loop
(`DCArticleCrawler.run`, lines 241-281). -/
def idStep (w : World) (is_crawl_comments : Bool) (maximum_batch_size : Nat)
    (end_gall_no : Int) (collected : List Int) (st : LoopState) : StepOut :=
  if interruptNow w st.iter then .stop st .interrupted
  else if ¬ (st.gall_no ≤ end_gall_no) then .stop st .normal
  else if st.gall_no ∈ collected then
    .next { st with gall_no := st.gall_no + 1, iter := st.iter + 1 }
  else
    let st1 := { st with events := st.events ++ [.postRequest st.gall_no] }
    match process_article w.pages w.commentsFor is_crawl_comments st1.gall_no with
    | .error e => .stop st1 (.exn e)
    | .ok (some a) => idStepTail maximum_batch_size { st1 with batch := st1.batch ++ [some a] }
    | .ok none => idStepTail maximum_batch_size st1

/-- The tail of one date-mode iteration after a successful in-window
append: threshold flush, then decrement the cursor and sleep. -/
def dateStepTail (maximum_batch_size : Nat) (st2 : LoopState) : StepOut :=
  let fl := flushIfThreshold maximum_batch_size st2
  match fl.2 with
  | some e => .stop fl.1 (.exn e)
  | none =>
    .next { fl.1 with gall_no := fl.1.gall_no - 1, events := fl.1.events ++ [Event.sleepEvt], iter := fl.1.iter + 1 }

/-- One iteration of the descending-by-date loop
(`DCArticleCrawler.run`, lines 288-338).  A `None` phase-1 result
decrements the cursor and retries with no sleep; a fetched record with a
`none` date hits the chained comparison `start_date <= article_data.date`
and raises `TypeError`; a date strictly before the window breaks. -/
def dateStep (w : World) (is_crawl_comments : Bool) (maximum_batch_size : Nat)
    (start_date end_date : Date) (collected : List Int) (st : LoopState) :
    StepOut :=
  if interruptNow w st.iter then .stop st .interrupted
  else
    let st1 := { st with events := st.events ++ [.postRequest st.gall_no] }
    match process_article w.pages w.commentsFor false st1.gall_no with
    | .error e => .stop st1 (.exn e)
    | .ok none =>
      .next { st1 with gall_no := st1.gall_no - 1, iter := st1.iter + 1 }
    | .ok (some article_data) =>
      match article_data.date with
      | none => .stop st1 (.exn .typeError)
      | some d =>
        if start_date ≤ d ∧ d ≤ end_date then
          if st1.gall_no ∈ collected then
            .next { st1 with gall_no := st1.gall_no - 1, events := st1.events ++ [Event.sleepEvt], iter := st1.iter + 1 }
          else
            let ap := appendPhase w is_crawl_comments st1 article_data
            match ap.2 with
            | some e => .stop ap.1 (.exn e)
            | none => dateStepTail maximum_batch_size ap.1
        else if d > end_date then
          .next { st1 with gall_no := st1.gall_no - 1, events := st1.events ++ [Event.sleepEvt], iter := st1.iter + 1 }
        else
          .stop st1 .normal

def idLoop (w : World) (is_crawl_comments : Bool) (maximum_batch_size : Nat)
    (end_gall_no : Int) (collected : List Int) :
    Nat → LoopState → LoopState × LoopExit
  | 0, st => (st, .fuelOut)
  | Nat.succ fuel, st =>
    match idStep w is_crawl_comments maximum_batch_size end_gall_no collected st with
    | .stop st2 ex => (st2, ex)
    | .next st2 =>
      idLoop w is_crawl_comments maximum_batch_size end_gall_no collected fuel st2

def dateLoop (w : World) (is_crawl_comments : Bool) (maximum_batch_size : Nat)
    (start_date end_date : Date) (collected : List Int) :
    Nat → LoopState → LoopState × LoopExit
  | 0, st => (st, .fuelOut)
  | Nat.succ fuel, st =>
    match dateStep w is_crawl_comments maximum_batch_size start_date end_date
        collected st with
    | .stop st2 ex => (st2, ex)
    | .next st2 =>
      dateLoop w is_crawl_comments maximum_batch_size start_date end_date
        collected fuel st2

/-- The observable outcome of one `run()`.  `exn` is the exception (if
any) escaping `run`; `exitKind`/`loopBatch` expose how the traversal loop
ended and the batch it held at that moment (`none`/`[]` when a pre-loop
validation error prevented the loop from starting). -/
structure RunResult where
  store : List StoredRec
  events : List Event
  exn : Option PyExn
  driverQuit : Bool
  fuelOut : Bool
  exitKind : Option LoopExit
  loopBatch : List (Option ArticleData)
deriving DecidableEq, Repr

/-- The tail of `run()`: the final / `except KeyboardInterrupt` flush and
the `finally: self.driver.quit()`.  An exception escaping the loop skips
the flush but still quits the driver. -/
def finishLoop (st : LoopState) (ex : LoopExit) : RunResult :=
  match ex with
  | .normal =>
    { store := (save_data_in_batch st.store st.batch).1
      events := st.events
      exn := (save_data_in_batch st.store st.batch).2
      driverQuit := true
      fuelOut := false
      exitKind := some .normal
      loopBatch := st.batch }
  | .interrupted =>
    { store := (save_data_in_batch st.store st.batch).1
      events := st.events
      exn := (save_data_in_batch st.store st.batch).2
      driverQuit := true
      fuelOut := false
      exitKind := some .interrupted
      loopBatch := st.batch }
  | .exn e =>
    { store := st.store
      events := st.events
      exn := some e
      driverQuit := true
      fuelOut := false
      exitKind := some (.exn e)
      loopBatch := st.batch }
  | .fuelOut =>
    { store := st.store
      events := st.events
      exn := none
      driverQuit := false
      fuelOut := true
      exitKind := some .fuelOut
      loopBatch := st.batch }

/-- Embedding of `DCArticleCrawler.run`.  `check_gallery_conditions` (one
listing request, `ValueError` on 404) and `check_scrapping_conditions`
run before the `try`, so their failures end the run with
`driverQuit = false`; the traversal loop runs inside `try ... except
KeyboardInterrupt ... finally: driver.quit()`. -/
def run (w : World) (cfg : CrawlerConfig) (fuel : Nat) : RunResult :=
  let store0 := w.store0.getD []
  if w.galleryExists = false then
    { store := store0, events := [.listRequest],
      exn := some (.valueError .galleryNotFound), driverQuit := false,
      fuelOut := false, exitKind := none, loopBatch := [] }
  else
    match check_scrapping_conditions cfg w.recentLookup with
    | (ev, .error e) =>
      { store := store0, events := .listRequest :: ev, exn := some e,
        driverQuit := false, fuelOut := false, exitKind := none,
        loopBatch := [] }
    | (ev, .ok plan) =>
      let collected := load_collected_gall_no w.store0
      let init : LoopState :=
        { gall_no := 0, batch := [], store := store0,
          events := .listRequest :: ev, iter := 0 }
      match plan with
      | .byGallNo s e =>
        let p := idLoop w cfg.is_crawl_comments cfg.maximum_batch_size e
          collected fuel { init with gall_no := s }
        finishLoop p.1 p.2
      | .byDate sd ed r =>
        let p := dateLoop w cfg.is_crawl_comments cfg.maximum_batch_size sd ed
          collected fuel { init with gall_no := r }
        finishLoop p.1 p.2

/-! ## Helper lemmas about the embedding -/

/-- The record built by `crawl_except_comment` carries the requested post
number. -/
theorem crawl_except_comment_gall_no {pages : Int → FetchOutcome} {g : Int}
    {a : ArticleExceptComment}
    (h : crawl_except_comment pages g = .ok (some a)) : a.gall_no = g := by
  unfold crawl_except_comment at h
  repeat' split at h
  all_goals simp_all
  all_goals (subst h; rfl)

/-- The record built by `process_article` carries the requested post
number. -/
theorem process_article_gall_no {pages : Int → FetchOutcome}
    {commentsFor : Int → Option (List Comment)} {b : Bool} {g : Int}
    {a : ArticleData}
    (h : process_article pages commentsFor b g = .ok (some a)) :
    a.gall_no = g := by
  unfold process_article at h
  cases hc : crawl_except_comment pages g with
  | error e => rw [hc] at h; exact absurd h (by simp)
  | ok o =>
    cases o with
    | none => rw [hc] at h; exact absurd h (by simp)
    | some a0 =>
      rw [hc] at h
      have hg := crawl_except_comment_gall_no hc
      cases b with
      | false =>
        simp only [Bool.false_eq_true, if_false] at h
        injection h with h2
        injection h2 with h3
        subst h3
        exact hg
      | true =>
        simp only [if_true] at h
        cases hcm : commentsFor g with
        | none => rw [hcm] at h; exact absurd h (by simp)
        | some cs =>
          rw [hcm] at h
          injection h with h2
          injection h2 with h3
          subst h3
          exact hg

def batchDumps (batch : List (Option ArticleData)) : List StoredRec :=
  batch.filterMap (fun o => o.map dump)

/-- Flushing a batch with no `none` entry succeeds and appends every
record, in order. -/
theorem save_no_none :
    ∀ (batch : List (Option ArticleData)) (store : List StoredRec),
      none ∉ batch →
      save_data_in_batch store batch = (store ++ batchDumps batch, none) := by
  intro batch
  induction batch with
  | nil => intro store _; simp [save_data_in_batch, batchDumps]
  | cons x rest ih =>
    intro store h
    cases x with
    | none => exact absurd (List.mem_cons_self _ _) h
    | some a =>
      have h2 : none ∉ rest := fun hm => h (List.mem_cons_of_mem _ hm)
      simp only [save_data_in_batch, ih (store ++ [dump a]) h2, batchDumps,
        List.filterMap_cons, Option.map_some]
      simp [batchDumps, List.append_assoc]

theorem storeIds_batchDumps (batch : List (Option ArticleData)) :
    storeIds (batchDumps batch) = batchIds batch := by
  induction batch with
  | nil => rfl
  | cons x rest ih =>
    cases x with
    | none => simpa [batchDumps, batchIds, storeIds, List.filterMap_cons] using ih
    | some a => simpa [batchDumps, batchIds, storeIds, List.filterMap_cons, dump] using ih

theorem storeIds_append (l1 l2 : List StoredRec) :
    storeIds (l1 ++ l2) = storeIds l1 ++ storeIds l2 := by
  simp [storeIds]

theorem batchIds_append (l1 l2 : List (Option ArticleData)) :
    batchIds (l1 ++ l2) = batchIds l1 ++ batchIds l2 := by
  simp [batchIds]

def stepState : StepOut → LoopState
  | .next st => st
  | .stop st _ => st

theorem flushIfThreshold_small {m : Nat} {st : LoopState}
    (h : ¬ st.batch.length ≥ m) : flushIfThreshold m st = (st, none) := by
  simp [flushIfThreshold, if_neg h]

/-- Flushing a `none`-free batch never raises, moves exactly the batch ids
into the store, and touches nothing else. -/
theorem flushIfThreshold_no_none {m : Nat} {st : LoopState}
    (h : none ∉ st.batch) :
    (flushIfThreshold m st).2 = none ∧
    storeIds (flushIfThreshold m st).1.store
        ++ batchIds (flushIfThreshold m st).1.batch
      = storeIds st.store ++ batchIds st.batch ∧
    (flushIfThreshold m st).1.gall_no = st.gall_no ∧
    (flushIfThreshold m st).1.iter = st.iter ∧
    (flushIfThreshold m st).1.events = st.events ∧
    none ∉ (flushIfThreshold m st).1.batch := by
  by_cases hc : st.batch.length ≥ m
  · simp only [flushIfThreshold, if_pos hc, save_no_none st.batch st.store h]
    simp [storeIds_append, storeIds_batchDumps, batchIds]
  · simp only [flushIfThreshold, if_neg hc]
    simp [h]

/-- Loop invariant of the ascending-by-id traversal: the persisted ids
together with the ids buffered in the batch are pairwise distinct, every
such id was either already collected before the run or lies below the
cursor, and the batch holds no `none` entry. -/
def IdInv (collected : List Int) (st : LoopState) : Prop :=
  (storeIds st.store ++ batchIds st.batch).Nodup ∧
  (∀ i ∈ storeIds st.store ++ batchIds st.batch,
    i ∈ collected ∨ i < st.gall_no) ∧
  none ∉ st.batch

theorem idStepTail_inv {m : Nat} {collected : List Int} (st2 : LoopState)
    (hNd : (storeIds st2.store ++ batchIds st2.batch).Nodup)
    (hB : ∀ i ∈ storeIds st2.store ++ batchIds st2.batch,
      i ∈ collected ∨ i < st2.gall_no + 1)
    (hNone : none ∉ st2.batch) :
    IdInv collected (stepState (idStepTail m st2)) := by
  obtain ⟨f1, f2, f3, f4, f5, f6⟩ := flushIfThreshold_no_none (m := m) hNone
  simp only [idStepTail, f1, stepState]
  refine ⟨?_, ?_, f6⟩
  · show (storeIds (flushIfThreshold m st2).1.store
      ++ batchIds (flushIfThreshold m st2).1.batch).Nodup
    rw [f2]
    exact hNd
  · intro i hi
    have hi2 : i ∈ storeIds (flushIfThreshold m st2).1.store
        ++ batchIds (flushIfThreshold m st2).1.batch := hi
    rw [f2] at hi2
    rcases hB i hi2 with h | h
    · exact Or.inl h
    · refine Or.inr ?_
      show i < (flushIfThreshold m st2).1.gall_no + 1
      omega

theorem idStep_inv {w : World} {b : Bool} {m : Nat} {e : Int}
    {collected : List Int} {st : LoopState} (hInv : IdInv collected st) :
    IdInv collected (stepState (idStep w b m e collected st)) := by
  obtain ⟨hNd, hB, hNone⟩ := hInv
  by_cases h1 : interruptNow w st.iter = true
  · simp only [idStep, h1, if_true, stepState]
    exact ⟨hNd, hB, hNone⟩
  rw [Bool.not_eq_true] at h1
  by_cases h2 : st.gall_no ≤ e
  case neg =>
    simp only [idStep, h1, Bool.false_eq_true, if_false, if_pos h2, stepState]
    exact ⟨hNd, hB, hNone⟩
  case pos =>
  by_cases h3 : st.gall_no ∈ collected
  · simp only [idStep, h1, Bool.false_eq_true, if_false,
      if_neg (not_not_intro h2), if_pos h3, stepState]
    refine ⟨hNd, ?_, hNone⟩
    intro i hi
    rcases hB i hi with h | h
    · exact Or.inl h
    · refine Or.inr ?_
      show i < st.gall_no + 1
      omega
  · simp only [idStep, h1, Bool.false_eq_true, if_false,
      if_neg (not_not_intro h2), if_neg h3]
    cases hp : process_article w.pages w.commentsFor b st.gall_no with
    | error err =>
      simp only [hp, stepState]
      exact ⟨hNd, hB, hNone⟩
    | ok res =>
      cases res with
      | none =>
        refine idStepTail_inv _ ?_ ?_ ?_
        · exact hNd
        · intro i hi
          rcases hB i hi with h | h
          · exact Or.inl h
          · refine Or.inr ?_
            show i < st.gall_no + 1
            omega
        · exact hNone
      | some a =>
        have hg : a.gall_no = st.gall_no := process_article_gall_no hp
        have hbid : batchIds (st.batch ++ [some a])
            = batchIds st.batch ++ [st.gall_no] := by
          simp [batchIds_append, batchIds, hg]
        have hnotin : st.gall_no ∉ storeIds st.store ++ batchIds st.batch := by
          intro hmem
          rcases hB _ hmem with h | h
          · exact h3 h
          · omega
        refine idStepTail_inv _ ?_ ?_ ?_
        · show (storeIds st.store ++ batchIds (st.batch ++ [some a])).Nodup
          rw [hbid, ← List.append_assoc, List.nodup_append]
          refine ⟨hNd, List.nodup_singleton _, ?_⟩
          intro x hx hx1
          rw [List.mem_singleton] at hx1
          subst hx1
          exact hnotin hx
        · show ∀ i ∈ storeIds st.store ++ batchIds (st.batch ++ [some a]),
            i ∈ collected ∨ i < st.gall_no + 1
          intro i hi
          rw [hbid, ← List.append_assoc] at hi
          rcases List.mem_append.mp hi with h | h
          · rcases hB i h with h2 | h2
            · exact Or.inl h2
            · exact Or.inr (by omega)
          · rw [List.mem_singleton] at h
            subst h
            exact Or.inr (by omega)
        · show none ∉ st.batch ++ [some a]
          intro hmem
          rcases List.mem_append.mp hmem with h | h
          · exact hNone h
          · simp at h

theorem idLoop_inv {w : World} {b : Bool} {m : Nat} {e : Int}
    {collected : List Int} :
    ∀ (fuel : Nat) (st : LoopState), IdInv collected st →
      IdInv collected (idLoop w b m e collected fuel st).1 := by
  intro fuel
  induction fuel with
  | zero => intro st h; exact h
  | succ n ih =>
    intro st h
    have hstep := idStep_inv (w := w) (b := b) (m := m) (e := e) h
    unfold idLoop
    cases hs : idStep w b m e collected st with
    | stop st2 ex =>
      rw [hs] at hstep
      exact hstep
    | next st2 =>
      rw [hs] at hstep
      exact ih st2 hstep

theorem finishLoop_store_nodup {st : LoopState} {ex : LoopExit}
    (hNd : (storeIds st.store ++ batchIds st.batch).Nodup)
    (hNone : none ∉ st.batch) :
    (storeIds (finishLoop st ex).store).Nodup := by
  cases ex with
  | normal =>
    simp only [finishLoop, save_no_none st.batch st.store hNone]
    simpa [storeIds_append, storeIds_batchDumps] using hNd
  | interrupted =>
    simp only [finishLoop, save_no_none st.batch st.store hNone]
    simpa [storeIds_append, storeIds_batchDumps] using hNd
  | exn e => exact hNd.of_append_left
  | fuelOut => exact hNd.of_append_left

theorem load_collected_eq (o : Option (List StoredRec)) :
    load_collected_gall_no o = storeIds (o.getD []) := by
  cases o <;> rfl

/-- After any id-mode run whose initial durable store has pairwise
distinct ids, the final store still has pairwise distinct ids: the run
only writes records whose `gall_no` was neither collected before the run
nor written earlier in the run. -/
theorem run_id_nodup {w : World} {cfg : CrawlerConfig} {fuel : Nat}
    {s e : Int} {ev : List Event}
    (hg : w.galleryExists = true)
    (hc : check_scrapping_conditions cfg w.recentLookup = (ev, .ok (.byGallNo s e)))
    (h0 : (storeIds (w.store0.getD [])).Nodup) :
    (storeIds (run w cfg fuel).store).Nodup := by
  have hinit : IdInv (load_collected_gall_no w.store0)
      { gall_no := s, batch := [], store := w.store0.getD [],
        events := Event.listRequest :: ev, iter := 0 } := by
    refine ⟨by simpa [batchIds] using h0, ?_, by simp⟩
    intro i hi
    simp only [batchIds, List.filterMap_nil, List.append_nil] at hi
    rw [load_collected_eq]
    exact Or.inl hi
  have hloop := idLoop_inv (w := w) (b := cfg.is_crawl_comments)
    (m := cfg.maximum_batch_size) (e := e)
    fuel _ hinit
  simp only [run, hg, Bool.true_eq_false, if_false, hc]
  exact finishLoop_store_nodup hloop.1 hloop.2.2

theorem run_validation_error {w : World} {cfg : CrawlerConfig} {fuel : Nat}
    {ev : List Event} {e : PyExn}
    (hg : w.galleryExists = true)
    (hc : check_scrapping_conditions cfg w.recentLookup = (ev, .error e)) :
    run w cfg fuel =
      { store := w.store0.getD [], events := .listRequest :: ev,
        exn := some e, driverQuit := false, fuelOut := false,
        exitKind := none, loopBatch := [] } := by
  simp only [run, hg, Bool.true_eq_false, if_false, hc]

/-- `check_scrapping_conditions` touches the network at most for the
recent-id listing lookup: its event trace is `[]` or `[listRequest]`. -/
theorem check_scrapping_conditions_events (c : CrawlerConfig)
    (rl : Option Int) :
    (check_scrapping_conditions c rl).1 = []
      ∨ (check_scrapping_conditions c rl).1 = [Event.listRequest] := by
  unfold check_scrapping_conditions
  repeat' split
  all_goals simp_all
  all_goals repeat' split
  all_goals simp

/-- Either `run` fails pre-loop validation (no loop exit recorded), or it
is the `finishLoop` wrap-up of some loop outcome. -/
theorem run_cases (w : World) (cfg : CrawlerConfig) (fuel : Nat) :
    (run w cfg fuel).exitKind = none
      ∨ ∃ st ex, run w cfg fuel = finishLoop st ex := by
  by_cases hg : w.galleryExists = false
  · left
    simp [run, hg]
  · rw [Bool.not_eq_false] at hg
    cases hcheck : check_scrapping_conditions cfg w.recentLookup with
    | mk ev r =>
      cases r with
      | error e =>
        left
        simp [run, hg, hcheck]
      | ok plan =>
        cases plan with
        | byGallNo s e =>
          right
          have hrun : run w cfg fuel = finishLoop
              (idLoop w cfg.is_crawl_comments cfg.maximum_batch_size e
                (load_collected_gall_no w.store0) fuel
                { gall_no := s, batch := [], store := w.store0.getD [],
                  events := Event.listRequest :: ev, iter := 0 }).1
              (idLoop w cfg.is_crawl_comments cfg.maximum_batch_size e
                (load_collected_gall_no w.store0) fuel
                { gall_no := s, batch := [], store := w.store0.getD [],
                  events := Event.listRequest :: ev, iter := 0 }).2 := by
            simp only [run, hg, Bool.true_eq_false, if_false, hcheck]
          exact ⟨_, _, hrun⟩
        | byDate sd ed rno =>
          right
          have hrun : run w cfg fuel = finishLoop
              (dateLoop w cfg.is_crawl_comments cfg.maximum_batch_size sd ed
                (load_collected_gall_no w.store0) fuel
                { gall_no := rno, batch := [], store := w.store0.getD [],
                  events := Event.listRequest :: ev, iter := 0 }).1
              (dateLoop w cfg.is_crawl_comments cfg.maximum_batch_size sd ed
                (load_collected_gall_no w.store0) fuel
                { gall_no := rno, batch := [], store := w.store0.getD [],
                  events := Event.listRequest :: ev, iter := 0 }).2 := by
            simp only [run, hg, Bool.true_eq_false, if_false, hcheck]
          exact ⟨_, _, hrun⟩

theorem finishLoop_exitKind (st : LoopState) (ex : LoopExit) :
    (finishLoop st ex).exitKind = some ex := by
  cases ex <;> rfl

theorem finishLoop_quit_of_not_fuelOut {st : LoopState} {ex : LoopExit}
    (h : (finishLoop st ex).fuelOut = false) :
    (finishLoop st ex).driverQuit = true := by
  cases ex <;> simp_all [finishLoop]

/-- A null phase-1 fetch in the date loop: decrement the cursor and go
around again, with no sleep, no date comparison, no append and no stop. -/
theorem dateStep_null {w : World} {b : Bool} {m : Nat} {sd ed : Date}
    {col : List Int} {st : LoopState}
    (hI : interruptNow w st.iter = false)
    (hp : process_article w.pages w.commentsFor false st.gall_no = .ok none) :
    dateStep w b m sd ed col st =
      .next { st with gall_no := st.gall_no - 1, events := st.events ++ [Event.postRequest st.gall_no], iter := st.iter + 1 } := by
  simp only [dateStep, hI, Bool.false_eq_true, if_false, hp]

/-- The post-append tail of a date-mode iteration never breaks the loop. -/
theorem dateStepTail_ne_stop_normal (m : Nat) (st2 st3 : LoopState) :
    dateStepTail m st2 ≠ .stop st3 .normal := by
  intro h
  rcases hfl : (flushIfThreshold m st2).2 with _ | e <;>
    simp [dateStepTail, hfl] at h

/-- Inversion: a date-mode iteration breaks the loop only on a fetched
record whose parsed date is strictly before the window start, and the
exit state's cursor is the post that was fetched. -/
theorem dateStep_stop_normal {w : World} {b : Bool} {m : Nat} {sd ed : Date}
    {col : List Int} {st st2 : LoopState}
    (h : dateStep w b m sd ed col st = .stop st2 .normal) :
    ∃ (a : ArticleData) (d : Date),
      process_article w.pages w.commentsFor false st2.gall_no = .ok (some a)
        ∧ a.date = some d ∧ d < sd := by
  by_cases hI : interruptNow w st.iter = true
  · simp [dateStep, hI] at h
  rw [Bool.not_eq_true] at hI
  simp only [dateStep, hI, Bool.false_eq_true, if_false] at h
  cases hp : process_article w.pages w.commentsFor false st.gall_no with
  | error e => rw [hp] at h; simp at h
  | ok res =>
    rw [hp] at h
    cases res with
    | none => simp at h
    | some a =>
      cases hd : a.date with
      | none => simp only [hd] at h; simp at h
      | some d =>
        simp only [hd] at h
        by_cases hwin : sd ≤ d ∧ d ≤ ed
        · rw [if_pos hwin] at h
          by_cases hmem : st.gall_no ∈ col
          · rw [if_pos hmem] at h
            simp at h
          · rw [if_neg hmem] at h
            rcases hap : (appendPhase w b { st with events := st.events ++ [Event.postRequest st.gall_no] } a).2 with _ | e
            · rw [hap] at h
              exact absurd h (dateStepTail_ne_stop_normal _ _ _)
            · rw [hap] at h
              simp at h
        · rw [if_neg hwin] at h
          by_cases hgt : d > ed
          · rw [if_pos hgt] at h
            simp at h
          · rw [if_neg hgt] at h
            have h2 : ({ st with events := st.events ++ [Event.postRequest st.gall_no] } : LoopState) = st2 := by
              cases h
              rfl
            subst h2
            refine ⟨a, d, hp, hd, ?_⟩
            rw [Decidable.not_and_iff_or_not] at hwin
            rcases hwin with h3 | h3
            · exact Nat.lt_of_not_le h3
            · exact absurd (Nat.lt_of_not_le h3) hgt

/-- If the loop exits with `normal`, the last iteration fetched a record
dated strictly before the window start, at the exit state's cursor. -/
theorem dateLoop_stop_normal {w : World} {b : Bool} {m : Nat} {sd ed : Date}
    {col : List Int} :
    ∀ (fuel : Nat) (st st2 : LoopState),
      dateLoop w b m sd ed col fuel st = (st2, .normal) →
      ∃ (a : ArticleData) (d : Date),
        process_article w.pages w.commentsFor false st2.gall_no = .ok (some a)
          ∧ a.date = some d ∧ d < sd := by
  intro fuel
  induction fuel with
  | zero =>
    intro st st2 h
    simp [dateLoop] at h
  | succ n ih =>
    intro st st2 h
    unfold dateLoop at h
    cases hs : dateStep w b m sd ed col st with
    | stop st3 ex =>
      rw [hs] at h
      simp only [Prod.mk.injEq] at h
      obtain ⟨h1, h2⟩ := h
      subst h1
      subst h2
      exact dateStep_stop_normal hs
    | next st3 =>
      rw [hs] at h
      exact ih st3 st2 h

/-- If the adapter yields `None` at every post, the descending loop never
terminates on its own and the cursor falls by one per iteration, with no
lower bound. -/
theorem dateLoop_null_descends {w : World} {b : Bool} {m : Nat}
    {sd ed : Date} {col : List Int}
    (hIntr : w.interruptAt = none)
    (hN : ∀ n : Int, process_article w.pages w.commentsFor false n = .ok none) :
    ∀ (fuel : Nat) (st : LoopState),
      (dateLoop w b m sd ed col fuel st).2 = .fuelOut ∧
      (dateLoop w b m sd ed col fuel st).1.gall_no = st.gall_no - fuel := by
  intro fuel
  induction fuel with
  | zero =>
    intro st
    exact ⟨rfl, by simp [dateLoop]⟩
  | succ n ih =>
    intro st
    have hI : interruptNow w st.iter = false := by
      simp [interruptNow, hIntr]
    have hstep := @dateStep_null w b m sd ed col st hI (hN st.gall_no)
    unfold dateLoop
    rw [hstep]
    obtain ⟨ih1, ih2⟩ := ih { st with gall_no := st.gall_no - 1, events := st.events ++ [Event.postRequest st.gall_no], iter := st.iter + 1 }
    refine ⟨ih1, ?_⟩
    rw [ih2]
    show st.gall_no - 1 - (n : Int) = st.gall_no - ((n : Nat) + 1 : Nat)
    push_cast
    ring

/-! ## Concrete scenarios used by the claim theorems -/

/-- A fully populated post page with the given date text. -/
def samplePage (ds : String) : Page :=
  { gall_date := some ds
    title_headtext := some "[general]"
    title_subject := some "t"
    write_div := some "body"
    recommend_up := some 1
    recommend_down := some 2
    view_count := some 3 }

def pagesOK : Int → FetchOutcome :=
  fun _ => .got (samplePage "2024.06.01 10:00:00")

/-! ## Claim C1 -/

def pageNoTitle : Page :=
  { samplePage "2024.06.01 10:00:00" with title_subject := none }

def wC1 : World :=
  { galleryExists := true, recentLookup := none,
    pages := fun _ => .got pageNoTitle, commentsFor := fun _ => some [],
    store0 := none, interruptAt := none }

def cfgC1 : CrawlerConfig :=
  { start_gall_no := some 5, end_gall_no := some 5, start_date := none,
    end_date := none, is_crawl_comments := false, maximum_batch_size := 100 }

def wC1b : World :=
  { galleryExists := true, recentLookup := some 10,
    pages := fun n =>
      if n == 10 then .got (samplePage "2024.06.01 10:00:00")
      else .got (samplePage "2023.01.01 10:00:00"),
    commentsFor := fun _ => none, store0 := none, interruptAt := none }

def cfgC1b : CrawlerConfig :=
  { start_gall_no := none, end_gall_no := none,
    start_date := some "2024.01.01", end_date := some "2024.12.31",
    is_crawl_comments := true, maximum_batch_size := 100 }

/-- Claim C1 says every adapter-level fetch failure is a logged skip that
never raises past the traversal loop.  The code violates this, on the
claim's own examples: (i) a post page whose required title element is
missing makes `crawl_except_comment` raise `AttributeError`; the run loop
catches only `KeyboardInterrupt`, so the exception escapes `run` and the
crawl dies with nothing persisted; (ii) in date mode with comments, a
failing second-phase re-fetch returns `None`, which is appended to the
batch unchecked (a corrupted batch, not a skip), and the final flush then
dies on the null entry. -/
theorem claim_C1_fetch_failure_fatal :
    ((run wC1 cfgC1 5).exn = some .attributeError ∧
      (run wC1 cfgC1 5).store = []) ∧
    ((run wC1b cfgC1b 5).loopBatch = [none] ∧
      (run wC1b cfgC1b 5).exn = some .attributeError ∧
      (run wC1b cfgC1b 5).store = []) := by
  decide

/-! ## Claim C2 -/

def wC2 : World :=
  { galleryExists := true, recentLookup := none, pages := fun _ => .netError,
    commentsFor := fun _ => some [], store0 := none, interruptAt := none }

def cfgC2 : CrawlerConfig :=
  { start_gall_no := some 7, end_gall_no := none, start_date := none,
    end_date := none, is_crawl_comments := false, maximum_batch_size := 100 }

/-- Claim C2 says the driver is quit on every exit path, including a
fatal configuration error raised during pre-loop validation.  It is not:
both validation checks run before the `try`/`finally`, so a run that
fails bound validation ends with the `ValueError` raised and
`driver.quit()` never called. -/
theorem claim_C2_counterexample :
    (run wC2 cfgC2 5).exn = some (.valueError .gallNoPairIncomplete) ∧
    (run wC2 cfgC2 5).driverQuit = false := by
  decide

/-- Claim C2 amended: once the traversal loop is reached (an exit kind is
recorded), the driver is quit on every loop exit — normal termination,
interruption, or an exception escaping the loop. -/
theorem claim_C2_driver_quit {w : World} {cfg : CrawlerConfig} {fuel : Nat}
    (hreach : (run w cfg fuel).exitKind ≠ none)
    (hfuel : (run w cfg fuel).fuelOut = false) :
    (run w cfg fuel).driverQuit = true := by
  rcases run_cases w cfg fuel with h | ⟨st, ex, h⟩
  · exact absurd h hreach
  · rw [h] at hfuel ⊢
    exact finishLoop_quit_of_not_fuelOut hfuel

def cfgC2w : CrawlerConfig :=
  { start_gall_no := some 1, end_gall_no := some 1, start_date := none,
    end_date := none, is_crawl_comments := false, maximum_batch_size := 100 }

theorem claim_C2_witness : (run wC2 cfgC2w 3).driverQuit = true :=
  claim_C2_driver_quit (by decide) (by decide)

/-! ## Claim C3 -/

/-- Claim C3: two id-mode runs against the same durable store, the second
loading the dedup index written by the first, leave no `gall_no` in more
than one persisted record. -/
theorem claim_C3_dedup_idempotent {w1 w2 : World} {cfg : CrawlerConfig}
    {fuel1 fuel2 : Nat} {s e : Int} {ev1 ev2 : List Event}
    (hg1 : w1.galleryExists = true) (hg2 : w2.galleryExists = true)
    (hc1 : check_scrapping_conditions cfg w1.recentLookup
      = (ev1, .ok (.byGallNo s e)))
    (hc2 : check_scrapping_conditions cfg w2.recentLookup
      = (ev2, .ok (.byGallNo s e)))
    (h0 : (storeIds (w1.store0.getD [])).Nodup)
    (hw2 : w2.store0 = some (run w1 cfg fuel1).store) :
    (storeIds (run w2 cfg fuel2).store).Nodup := by
  refine run_id_nodup hg2 hc2 ?_
  rw [hw2]
  simpa using @run_id_nodup w1 cfg fuel1 s e ev1 hg1 hc1 h0

def wC3a : World :=
  { galleryExists := true, recentLookup := none, pages := pagesOK,
    commentsFor := fun _ => some [], store0 := none, interruptAt := none }

def cfgC3 : CrawlerConfig :=
  { start_gall_no := some 1, end_gall_no := some 3, start_date := none,
    end_date := none, is_crawl_comments := false, maximum_batch_size := 100 }

def wC3b : World := { wC3a with store0 := some (run wC3a cfgC3 10).store }

theorem claim_C3_witness :
    (storeIds (run wC3b cfgC3 10).store).Nodup :=
  claim_C3_dedup_idempotent rfl rfl rfl rfl (by decide) rfl

/-! ## Claim C4 -/

def wC4 : World :=
  { galleryExists := true, recentLookup := some 10,
    pages := fun n =>
      if n == 10 then .got (samplePage "2024.06.02 10:00:00")
      else if n == 9 then .got (samplePage "2024.06.01 10:00:00")
      else .got (samplePage "2024.05.31 10:00:00"),
    commentsFor := fun n => if n == 9 then some [] else none,
    store0 := none, interruptAt := some 2 }

def cfgC4 : CrawlerConfig :=
  { start_gall_no := none, end_gall_no := none,
    start_date := some "2024.06.01", end_date := some "2024.12.31",
    is_crawl_comments := true, maximum_batch_size := 100 }

def recC4 : ArticleData :=
  { gall_no := 9, date := some 20240601, header := "general", title := "t",
    view_count := 3, content := "body", recommend_count := 1,
    nonrecommend_count := 2, comments := [] }

/-- Claim C4 says an interrupt flushes every appended-but-unflushed
record.  Counterexample: post 10's second-phase fetch fails, so `None`
sits in the batch ahead of the completed record for post 9; the
interrupt-time flush crashes on the null entry and post 9's record never
reaches the store. -/
theorem claim_C4_counterexample :
    (run wC4 cfgC4 10).exitKind = some .interrupted ∧
    (run wC4 cfgC4 10).loopBatch = [none, some recC4] ∧
    (run wC4 cfgC4 10).store = [] ∧
    (run wC4 cfgC4 10).exn = some .attributeError := by
  decide

/-- Claim C4 amended: in an interrupted run whose batch holds no null
entry (always true in id mode; true in date mode unless a second-phase
re-fetch failed), every appended-but-unflushed record is flushed to the
store before the run ends. -/
theorem claim_C4_interrupt_flush {w : World} {cfg : CrawlerConfig}
    {fuel : Nat}
    (hint : (run w cfg fuel).exitKind = some .interrupted)
    (hnn : none ∉ (run w cfg fuel).loopBatch) :
    ∀ a : ArticleData, some a ∈ (run w cfg fuel).loopBatch →
      dump a ∈ (run w cfg fuel).store := by
  rcases run_cases w cfg fuel with h | ⟨st, ex, h⟩
  · rw [h] at hint
    exact absurd hint (by simp)
  · rw [h] at hint hnn ⊢
    rw [finishLoop_exitKind] at hint
    have hex : ex = .interrupted := by injection hint
    subst hex
    intro a ha
    have hnn2 : none ∉ st.batch := hnn
    have hsave := save_no_none st.batch st.store hnn2
    show dump a ∈ (save_data_in_batch st.store st.batch).1
    rw [hsave]
    refine List.mem_append.mpr (Or.inr ?_)
    exact List.mem_filterMap.mpr ⟨some a, ha, rfl⟩

def wC4w : World :=
  { galleryExists := true, recentLookup := none, pages := pagesOK,
    commentsFor := fun _ => some [], store0 := none, interruptAt := some 1 }

def recC4w : ArticleData :=
  { gall_no := 1, date := some 20240601, header := "general", title := "t",
    view_count := 3, content := "body", recommend_count := 1,
    nonrecommend_count := 2, comments := [] }

theorem claim_C4_witness :
    dump recC4w ∈ (run wC4w cfgC3 5).store :=
  claim_C4_interrupt_flush (by decide) (by decide) recC4w (by decide)

/-! ## Claim C5 -/

def pageC5 : Page := samplePage "2024-06-01 12:00:00"

def recC5 : ArticleExceptComment :=
  { gall_no := 7, date := none, header := "general", title := "t",
    view_count := 3, content := "body", recommend_count := 1,
    nonrecommend_count := 2 }

/-- Claim C5 says an unparseable date is treated as a fetch failure and
no record is produced.  The code violates this: `parse_date` returns
`None` on an unparseable date text and `crawl_except_comment` stores that
result unchecked, producing a record whose date is null. -/
theorem claim_C5_null_date_record :
    crawl_except_comment (fun _ => .got pageC5) 7 = .ok (some recC5) ∧
    recC5.date = none :=
  ⟨by rfl, rfl⟩

/-! ## Claim C6 -/

/-- Claim C6: in descending date mode, a fetched post dated inside
`[start_date, end_date]` (boundaries included) and not yet collected is
appended to the batch and the walk continues; one dated strictly after
`end_date` is passed over (logged) and the walk continues descending; one
dated strictly before `start_date` is not appended and terminates the
traversal on the spot. -/
theorem claim_C6_date_window_boundary {w : World} {m : Nat}
    {sd ed d : Date} {collected : List Int} {st : LoopState}
    {a : ArticleData}
    (hI : interruptNow w st.iter = false)
    (hp : process_article w.pages w.commentsFor false st.gall_no = .ok (some a))
    (hd : a.date = some d)
    (hse : sd ≤ ed)
    (hlen : st.batch.length + 1 < m) :
    (sd ≤ d → d ≤ ed → st.gall_no ∉ collected →
      dateStep w false m sd ed collected st =
        .next { st with gall_no := st.gall_no - 1, batch := st.batch ++ [some a], events := (st.events ++ [Event.postRequest st.gall_no]) ++ [Event.sleepEvt], iter := st.iter + 1 }) ∧
    (ed < d →
      dateStep w false m sd ed collected st =
        .next { st with gall_no := st.gall_no - 1, events := (st.events ++ [Event.postRequest st.gall_no]) ++ [Event.sleepEvt], iter := st.iter + 1 }) ∧
    (d < sd →
      dateStep w false m sd ed collected st =
        .stop { st with events := st.events ++ [Event.postRequest st.gall_no] } .normal) := by
  refine ⟨?_, ?_, ?_⟩
  · intro h1 h2 h3
    simp only [dateStep, hI, Bool.false_eq_true, if_false, hp, hd]
    rw [if_pos (⟨h1, h2⟩ : sd ≤ d ∧ d ≤ ed)]
    rw [if_neg h3]
    simp only [appendPhase, Bool.false_eq_true, if_false, dateStepTail]
    rw [flushIfThreshold_small (by simp; omega)]
  · intro h4
    simp only [dateStep, hI, Bool.false_eq_true, if_false, hp, hd]
    rw [if_neg (fun hcon => absurd hcon.2 (Nat.not_le_of_lt h4))]
    rw [if_pos h4]
  · intro h5
    simp only [dateStep, hI, Bool.false_eq_true, if_false, hp, hd]
    rw [if_neg (fun hcon => absurd hcon.1 (Nat.not_le_of_lt h5))]
    rw [if_neg (Nat.lt_asymm (Nat.lt_of_lt_of_le h5 hse))]

def wC6 : World :=
  { galleryExists := true, recentLookup := none, pages := pagesOK,
    commentsFor := fun _ => some [], store0 := none, interruptAt := none }

def stC6 : LoopState :=
  { gall_no := 20, batch := [], store := [], events := [], iter := 0 }

def recC6 : ArticleData :=
  { gall_no := 20, date := some 20240601, header := "general", title := "t",
    view_count := 3, content := "body", recommend_count := 1,
    nonrecommend_count := 2, comments := [] }

theorem claim_C6_witness :
    ((20240601 : Date) ≤ 20240601 → (20240601 : Date) ≤ 20240701 →
      stC6.gall_no ∉ ([] : List Int) →
      dateStep wC6 false 100 20240601 20240701 [] stC6 =
        .next { stC6 with gall_no := stC6.gall_no - 1, batch := stC6.batch ++ [some recC6], events := (stC6.events ++ [Event.postRequest stC6.gall_no]) ++ [Event.sleepEvt], iter := stC6.iter + 1 }) ∧
    ((20240701 : Date) < 20240601 →
      dateStep wC6 false 100 20240601 20240701 [] stC6 =
        .next { stC6 with gall_no := stC6.gall_no - 1, events := (stC6.events ++ [Event.postRequest stC6.gall_no]) ++ [Event.sleepEvt], iter := stC6.iter + 1 }) ∧
    ((20240601 : Date) < 20240601 →
      dateStep wC6 false 100 20240601 20240701 [] stC6 =
        .stop { stC6 with events := stC6.events ++ [Event.postRequest stC6.gall_no] } .normal) :=
  claim_C6_date_window_boundary rfl (by rfl) rfl (by decide) (by decide)

/-! ## Claim C7 -/

def wC7 : World :=
  { galleryExists := true, recentLookup := none, pages := fun _ => .netError,
    commentsFor := fun _ => some [], store0 := none, interruptAt := none }

def cfgC7 : CrawlerConfig :=
  { start_gall_no := none, end_gall_no := none,
    start_date := some "2024.01.01", end_date := none,
    is_crawl_comments := false, maximum_batch_size := 100 }

/-- Claim C7 says a `ConfigurationError` is raised before any network
activity.  It is not: `check_gallery_conditions` issues its listing
request before `check_scrapping_conditions` runs, so a run with invalid
bounds has already performed one network request when the error is
raised. -/
theorem claim_C7_counterexample :
    (run wC7 cfgC7 5).exn = some (.valueError .datePairIncomplete) ∧
    (run wC7 cfgC7 5).events = [Event.listRequest] := by
  decide

/-- Claim C7 amended: a pre-loop validation error is raised before the
traversal loop starts and before any per-post fetch (no `postRequest`
event), though after the board-existence listing request. -/
theorem claim_C7_error_before_loop {w : World} {cfg : CrawlerConfig}
    {fuel : Nat} {ev : List Event} {e : PyExn}
    (hg : w.galleryExists = true)
    (hc : check_scrapping_conditions cfg w.recentLookup = (ev, .error e)) :
    (run w cfg fuel).exn = some e ∧
    (run w cfg fuel).exitKind = none ∧
    ∀ n : Int, Event.postRequest n ∉ (run w cfg fuel).events := by
  rw [run_validation_error hg hc]
  refine ⟨rfl, rfl, ?_⟩
  intro n hmem
  rcases List.mem_cons.mp hmem with h | h
  · exact absurd h (by simp)
  · have hev : (check_scrapping_conditions cfg w.recentLookup).1 = ev := by
      rw [hc]
    rcases check_scrapping_conditions_events cfg w.recentLookup with hE | hE <;>
      rw [hev] at hE <;> subst hE <;> simp_all

theorem claim_C7_witness :
    Event.postRequest 5 ∉ (run wC7 cfgC7 3).events ∧
    (run wC7 cfgC7 3).exn = some (.valueError .datePairIncomplete) :=
  ⟨(claim_C7_error_before_loop rfl rfl).2.2 5,
   (claim_C7_error_before_loop rfl rfl).1⟩

/-! ## Claim C8 -/

def cfgC8 : CrawlerConfig :=
  { start_gall_no := some 0, end_gall_no := some 5, start_date := none,
    end_date := none, is_crawl_comments := false, maximum_batch_size := 100 }

/-- Claim C8 says that when both bounds of the id pair are set —
including the boundary value 0 — the pair check passes.  It does not:
the check tests Python truthiness, `bool(0)` is `False`, so
`start_gall_no = 0` with `end_gall_no = 5` fails the pair check even
though both bounds are set. -/
theorem claim_C8_counterexample :
    check_scrapping_conditions cfgC8 none
      = ([], .error (.valueError .gallNoPairIncomplete)) := by
  rfl

/-- Claim C8 amended: the id-pair check fails exactly when the two
bounds differ in Python truthiness (`None` and `0` are both falsy).  In
particular one truthy bound with the other missing fails, and two truthy
bounds pass; but both-set pairs containing a `0` fail, and a single set
bound equal to `0` passes the pair check. -/
theorem check_pair_error {c : CrawlerConfig} {rl : Option Int}
    (h : (truthyOptInt c.start_gall_no ^^ truthyOptInt c.end_gall_no) = true) :
    check_scrapping_conditions c rl
      = ([], .error (.valueError .gallNoPairIncomplete)) := by
  simp [check_scrapping_conditions, h]

theorem check_pair_pass {c : CrawlerConfig} {rl : Option Int}
    (h : (truthyOptInt c.start_gall_no ^^ truthyOptInt c.end_gall_no) = false) :
    (check_scrapping_conditions c rl).2
      ≠ .error (.valueError .gallNoPairIncomplete) := by
  simp only [check_scrapping_conditions, h, Bool.false_eq_true, if_false]
  repeat' split
  all_goals simp_all

theorem claim_C8_truthiness_pair (s e : Option Int) :
    ((check_scrapping_conditions
        { start_gall_no := s, end_gall_no := e, start_date := none,
          end_date := none, is_crawl_comments := false,
          maximum_batch_size := 100 } none).2
      = .error (.valueError .gallNoPairIncomplete))
    ↔ truthyOptInt s ≠ truthyOptInt e := by
  cases hs : truthyOptInt s <;> cases he : truthyOptInt e
  · refine iff_of_false (check_pair_pass ?_) (by simp [hs, he])
    show (truthyOptInt s ^^ truthyOptInt e) = false
    rw [hs, he]
    rfl
  · refine iff_of_true ?_ (by simp [hs, he])
    rw [check_pair_error]
    show (truthyOptInt s ^^ truthyOptInt e) = true
    rw [hs, he]
    rfl
  · refine iff_of_true ?_ (by simp [hs, he])
    rw [check_pair_error]
    show (truthyOptInt s ^^ truthyOptInt e) = true
    rw [hs, he]
    rfl
  · refine iff_of_false (check_pair_pass ?_) (by simp [hs, he])
    show (truthyOptInt s ^^ truthyOptInt e) = false
    rw [hs, he]
    rfl

theorem claim_C8_witness :
    ((check_scrapping_conditions
        { start_gall_no := some 0, end_gall_no := some 5, start_date := none,
          end_date := none, is_crawl_comments := false,
          maximum_batch_size := 100 } none).2
      = .error (.valueError .gallNoPairIncomplete))
    ↔ truthyOptInt (some 0) ≠ truthyOptInt (some 5) :=
  claim_C8_truthiness_pair (some 0) (some 5)

/-! ## Claim C9 -/

/-- Claim C9: a null phase-1 fetch while descending decrements the
cursor and retries immediately — no sleep event, no batch change, no
termination — and the result does not depend on the date window at all
(the window bounds do not occur on the right-hand side). -/
theorem claim_C9_null_fetch_transparent {w : World} {b : Bool} {m : Nat}
    {sd ed : Date} {collected : List Int} {st : LoopState}
    (hI : interruptNow w st.iter = false)
    (hp : process_article w.pages w.commentsFor false st.gall_no = .ok none) :
    dateStep w b m sd ed collected st =
      .next { st with gall_no := st.gall_no - 1, events := st.events ++ [Event.postRequest st.gall_no], iter := st.iter + 1 } :=
  dateStep_null hI hp

def wC9 : World :=
  { galleryExists := true, recentLookup := none, pages := fun _ => .netError,
    commentsFor := fun _ => some [], store0 := none, interruptAt := none }

def stC9 : LoopState :=
  { gall_no := 4, batch := [], store := [], events := [], iter := 0 }

theorem claim_C9_witness :
    dateStep wC9 false 100 20240101 20241231 [] stC9 =
      .next { stC9 with gall_no := stC9.gall_no - 1, events := stC9.events ++ [Event.postRequest stC9.gall_no], iter := stC9.iter + 1 } :=
  claim_C9_null_fetch_transparent rfl rfl

/-! ## Claim C10 -/

/-- Claim C10: the descending date-mode loop breaks out only on a
fetched record dated strictly before `start_date`; and if the adapter
yields null at every post, the loop runs forever with the cursor falling
by one per iteration — no floor at zero or anywhere else. -/
theorem claim_C10_descending_termination :
    (∀ (w : World) (b : Bool) (m : Nat) (sd ed : Date) (col : List Int)
        (fuel : Nat) (st st2 : LoopState),
      dateLoop w b m sd ed col fuel st = (st2, .normal) →
      ∃ (a : ArticleData) (d : Date),
        process_article w.pages w.commentsFor false st2.gall_no = .ok (some a)
          ∧ a.date = some d ∧ d < sd) ∧
    (∀ (w : World) (b : Bool) (m : Nat) (sd ed : Date) (col : List Int)
        (st : LoopState),
      w.interruptAt = none →
      (∀ n : Int, process_article w.pages w.commentsFor false n = .ok none) →
      ∀ fuel : Nat,
        (dateLoop w b m sd ed col fuel st).2 = .fuelOut ∧
        (dateLoop w b m sd ed col fuel st).1.gall_no = st.gall_no - fuel) := by
  constructor
  · intro w b m sd ed col fuel st st2 h
    exact dateLoop_stop_normal fuel st st2 h
  · intro w b m sd ed col st h1 h2 fuel
    exact dateLoop_null_descends h1 h2 fuel st

def wC10 : World :=
  { galleryExists := true, recentLookup := none, pages := fun _ => .netError,
    commentsFor := fun _ => some [], store0 := none, interruptAt := none }

def stC10 : LoopState :=
  { gall_no := 2, batch := [], store := [], events := [], iter := 0 }

theorem claim_C10_witness :
    (dateLoop wC10 false 100 20240101 20241231 [] 4 stC10).2 = .fuelOut ∧
    (dateLoop wC10 false 100 20240101 20241231 [] 4 stC10).1.gall_no
      = stC10.gall_no - ((4 : Nat) : Int) :=
  claim_C10_descending_termination.2 wC10 false 100 20240101 20241231 []
    stC10 rfl (fun _ => rfl) 4

end DCCrawler
